import Mathlib

/-!
Verification development for the desktop control layer in
`src/src-tauri/src/main.rs` (credential vault, persistent cache,
path sanitization, local auth token).

Modelling conventions:
* Rust `HashMap<String, String>` / `serde_json::Map<String, Value>` are
  embedded as association lists `List (String × _)` with lookup-first
  semantics; `insert` replaces any previous binding, `remove` drops all
  bindings of the key.  All claims are stated through `lookup`, which is
  order-insensitive, so the list representation is faithful.
* The OS secure storage (keyring) is embedded as explicit state: the
  consolidated `secrets-vault` record is stored in parsed form (the
  serialization `serde_json::to_string` / `from_str` round-trips
  structurally, so keeping the parsed mapping loses nothing), and fallible
  provider calls take an explicit success flag.
* The persistent-cache file is likewise embedded as its parse outcome
  (`missing` / `malformed` / `parsed v`); a successful
  `std::fs::write` of serialized data makes the file `parsed` of that
  data, and a failed write is modelled as leaving the file state as is
  (the claims below only constrain the in-memory state and the
  successfully written file).
* The `serde_json` parsing of an externally supplied payload string is an
  oracle input of type `Option Json` (`none` = the string is not valid
  JSON), since the parser itself is an external library.
-/

namespace WorldMonitor

/-- The fixed recognized secret names, `SUPPORTED_SECRET_KEYS` in main.rs. -/
def SUPPORTED_SECRET_KEYS : List String := [
  "GROQ_API_KEY",
  "OPENROUTER_API_KEY",
  "FRED_API_KEY",
  "EIA_API_KEY",
  "CLOUDFLARE_API_TOKEN",
  "ACLED_ACCESS_TOKEN",
  "URLHAUS_AUTH_KEY",
  "OTX_API_KEY",
  "ABUSEIPDB_API_KEY",
  "WINGBITS_API_KEY",
  "WS_RELAY_URL",
  "VITE_OPENSKY_RELAY_URL",
  "OPENSKY_CLIENT_ID",
  "OPENSKY_CLIENT_SECRET",
  "AISSTREAM_API_KEY",
  "VITE_WS_RELAY_URL",
  "FINNHUB_API_KEY",
  "NASA_FIRMS_API_KEY",
  "OLLAMA_API_URL",
  "OLLAMA_MODEL",
  "WORLDMONITOR_API_KEY"]

/-- Rust `char::is_whitespace`: the Unicode White_Space property. -/
def rustIsWhitespace (c : Char) : Bool :=
  (0x9 ≤ c.val && c.val ≤ 0xD) || c.val = 0x20 ||
  c.val = 0x85 || c.val = 0xA0 || c.val = 0x1680 ||
  (0x2000 ≤ c.val && c.val ≤ 0x200A) ||
  c.val = 0x2028 || c.val = 0x2029 || c.val = 0x202F ||
  c.val = 0x205F || c.val = 0x3000

/-- Rust `str::trim`: remove leading and trailing Unicode whitespace. -/
def rustTrim (s : String) : String :=
  ⟨((s.data.dropWhile rustIsWhitespace).reverse.dropWhile rustIsWhitespace).reverse⟩

/-- Association-list map over string keys: the in-memory snapshot type of
`SecretsCache` (`HashMap<String, String>`). -/
abbrev Smap := List (String × String)

/-- Rust `HashMap::remove`: drop every binding of `k`. -/
def mapRemove (k : String) (m : Smap) : Smap :=
  m.filter (fun p => p.1 != k)

/-- Rust `HashMap::insert`: bind `k` to `v`, replacing any previous binding. -/
def mapInsert (k v : String) (m : Smap) : Smap :=
  (k, v) :: mapRemove k m

/-- Secure-storage state visible to the vault write path: the single
consolidated `secrets-vault` record (in parsed form; `none` = absent). -/
structure Keychain where
  vault : Option Smap
  deriving DecidableEq

/-- Combined state of `SecretsCache` (in-memory snapshot) and the keychain. -/
structure VaultSys where
  secrets : Smap
  kc : Keychain
  deriving DecidableEq

/-- Helper `save_vault` in main.rs: serialize the whole mapping and write it
as the one `secrets-vault` record.  `writeOk` is the success of the keyring
provider call chain (serialize / `Entry::new` / `set_password`). -/
def save_vault (writeOk : Bool) (cache : Smap) :
    Except String Keychain :=
  if writeOk then .ok { vault := some cache }
  else .error "Failed to write vault"

/-- Command `get_secret`: reject unrecognized names, otherwise read the
in-memory snapshot. -/
def get_secret (key : String) (st : VaultSys) : Except String (Option String) :=
  if !(SUPPORTED_SECRET_KEYS.contains key) then
    .error ("Unsupported secret key: " ++ key)
  else
    .ok (st.secrets.lookup key)

/-- Command `set_secret`: reject unrecognized names; build the proposed
snapshot (trimmed value inserted, or removed when the trimmed value is
empty), persist it via `save_vault`, and commit to memory only on success. -/
def set_secret (writeOk : Bool) (key value : String) (st : VaultSys) :
    Except String Unit × VaultSys :=
  if !(SUPPORTED_SECRET_KEYS.contains key) then
    (.error ("Unsupported secret key: " ++ key), st)
  else
    let trimmed := rustTrim value
    let proposed :=
      if trimmed.isEmpty then mapRemove key st.secrets
      else mapInsert key trimmed st.secrets
    match save_vault writeOk proposed with
    | .error e => (.error e, st)
    | .ok kc1 => (.ok (), { secrets := proposed, kc := kc1 })

/-- Command `delete_secret`: reject unrecognized names; persist the snapshot
with the key removed, committing to memory only on success. -/
def delete_secret (writeOk : Bool) (key : String) (st : VaultSys) :
    Except String Unit × VaultSys :=
  if !(SUPPORTED_SECRET_KEYS.contains key) then
    (.error ("Unsupported secret key: " ++ key), st)
  else
    let proposed := mapRemove key st.secrets
    match save_vault writeOk proposed with
    | .error e => (.error e, st)
    | .ok kc1 => (.ok (), { secrets := proposed, kc := kc1 })

/-- An empty vault system state, used to instantiate witnesses. -/
def vaultSt0 : VaultSys := ⟨[], ⟨none⟩⟩

/-- A vault system state holding one secret, used to instantiate witnesses. -/
def vaultSt1 : VaultSys :=
  ⟨[("OLLAMA_MODEL", "llama3")], ⟨some [("OLLAMA_MODEL", "llama3")]⟩⟩

/-! ### Vault loading and legacy migration (`SecretsCache::load_from_keychain`) -/

/-- Outcome of reading the consolidated `secrets-vault` keychain record:
`absent` covers `Entry::new` / `get_password` failure, `unparseable` a
record that `serde_json` cannot parse as a string map, `parsed m` a
well-formed record. -/
inductive VaultRead where
  | absent
  | unparseable
  | parsed (m : Smap)
  deriving DecidableEq

/-- Keychain state seen by `load_from_keychain`: the consolidated record,
the legacy per-key records (lookup `none` = absent or per-key read
failure, both tolerated identically by the code), and whether the
consolidated migration write chain (serialize / `Entry::new` /
`set_password`) succeeds. -/
structure KeychainM where
  vaultRead : VaultRead
  legacy : Smap
  vaultWriteOk : Bool
  deriving DecidableEq

/-- Steady-state filter applied to a parsed consolidated record: keep
recognized keys with non-empty trimmed values, trimming the values. -/
def steadyFilter (m : Smap) : Smap :=
  (m.filter (fun p =>
      SUPPORTED_SECRET_KEYS.contains p.1 && !(rustTrim p.2).isEmpty)).map
    (fun p => (p.1, rustTrim p.2))

/-- The value the migration loop collects for one recognized key: the
trimmed legacy value when present and non-empty after trimming. -/
def legacyVal (legacy : Smap) (key : String) : Option String :=
  match legacy.lookup key with
  | some value =>
    let trimmed := rustTrim value
    if trimmed.isEmpty then none else some trimmed
  | none => none

/-- The migration loop over `SUPPORTED_SECRET_KEYS`: read each recognized
name as a legacy record, collect non-empty trimmed values.  The Rust loop
builds a `HashMap` by insertion; since the iterated keys are distinct the
resulting mapping is this association list. -/
def collectLegacy (legacy : Smap) : Smap :=
  SUPPORTED_SECRET_KEYS.filterMap (fun key =>
    (legacyVal legacy key).map (fun v => (key, v)))

/-- Legacy cleanup after a successful consolidated write:
best-effort `delete_credential` for every recognized key. -/
def deleteLegacy (legacy : Smap) : Smap :=
  legacy.filter (fun p => !(SUPPORTED_SECRET_KEYS.contains p.1))

/-- Migration path of `SecretsCache::load_from_keychain`: collect the
legacy values; if any were found and the consolidated write succeeds,
install them as the one consolidated record and delete the legacy
records; a failed consolidated write only skips the cleanup. -/
def migrate (kc : KeychainM) : Smap × KeychainM :=
  let secrets := collectLegacy kc.legacy
  if !secrets.isEmpty && kc.vaultWriteOk then
    (secrets,
     { kc with vaultRead := .parsed secrets, legacy := deleteLegacy kc.legacy })
  else
    (secrets, kc)

/-- Load path `SecretsCache::load_from_keychain`: steady-state path when the
consolidated record parses, otherwise the migration path.  Returns the
in-memory snapshot and the resulting keychain state. -/
def load_from_keychain (kc : KeychainM) : Smap × KeychainM :=
  match kc.vaultRead with
  | .parsed m => (steadyFilter m, kc)
  | .absent => migrate kc
  | .unparseable => migrate kc

/-- A concrete keychain state on the migration path, used for the C2
witness: one recognized key with surrounding whitespace, one unrecognized
legacy record, one recognized key whose value trims to empty. -/
def kcM0 : KeychainM :=
  ⟨.absent,
   [("GROQ_API_KEY", " abc "), ("bogus", "x"), ("FRED_API_KEY", "  ")],
   true⟩

/-! ### Persistent cache (`PersistentCache` and the cache commands) -/

/-- Structured JSON-like values (`serde_json::Value`); numbers are embedded
as integers, which is enough for every claim (none depends on numeric
representation). -/
inductive Json where
  | null
  | bool (b : Bool)
  | num (n : Int)
  | str (s : String)
  | arr (elems : List Json)
  | obj (fields : List (String × Json))

/-- A JSON object body (`serde_json::Map<String, Value>`). -/
abbrev JObj := List (String × Json)

/-- Rust `Value::as_object`. -/
def asObject : Json → Option JObj
  | .obj fields => some fields
  | _ => none

/-- State of the persistent-cache file, as its parse outcome: `missing`
(no file, or unreadable), `malformed` (text that does not parse as JSON),
or `parsed v` (valid JSON text parsing to `v`). -/
inductive FileContent where
  | missing
  | malformed
  | parsed (v : Json)

/-- The object a load of the file produces: `read_to_string` then
`serde_json::from_str` then `as_object`, any failure collapsing to the
empty mapping. -/
def fileMap : FileContent → JObj
  | .missing => []
  | .malformed => []
  | .parsed v => (asObject v).getD []

/-- In-memory part of `PersistentCache`: the mapping and the dirty flag. -/
structure PersistentCache where
  data : JObj
  dirty : Bool

/-- Constructor `PersistentCache::load`: parse the file (tolerating absence
and malformed content) and start clean. -/
def PersistentCache.load (file : FileContent) : PersistentCache :=
  { data := fileMap file, dirty := false }

/-- Rust `Map::remove` on a JSON object. -/
def jRemove (k : String) (m : JObj) : JObj :=
  m.filter (fun p => p.1 != k)

/-- Rust `Map::insert` on a JSON object: bind `k`, replacing any previous
binding. -/
def jInsert (k : String) (v : Json) (m : JObj) : JObj :=
  (k, v) :: jRemove k m

/-- Combined state of the in-memory cache and the cache file on disk. -/
structure CacheSys where
  cache : PersistentCache
  file : FileContent

/-- Command `delete_cache_entry`: remove from the in-memory mapping, mark
dirty, and defer the disk write (the file is untouched). -/
def delete_cache_entry (key : String) (st : CacheSys) :
    Except String Unit × CacheSys :=
  (.ok (),
   { st with cache := { data := jRemove key st.cache.data, dirty := true } })

/-- Command `write_cache_entry`: parse the payload (`payload` is the parse
outcome; `none` = the string is not valid JSON), insert into the in-memory
mapping, mark dirty, then synchronously serialize the full mapping and
overwrite the file, clearing dirty only after the write succeeds.
`pathOk` is the success of `cache_file_path`, `writeOk` of
`std::fs::write`. -/
def write_cache_entry (pathOk writeOk : Bool) (key : String)
    (payload : Option Json) (st : CacheSys) : Except String Unit × CacheSys :=
  match payload with
  | none => (.error "Invalid cache payload JSON", st)
  | some parsed_value =>
    let data1 := jInsert key parsed_value st.cache.data
    let st1 : CacheSys := { st with cache := { data := data1, dirty := true } }
    if !pathOk then (.error "Failed to resolve app data dir", st1)
    else if !writeOk then (.error "Failed to write cache", st1)
    else
      (.ok (),
       { cache := { data := data1, dirty := false },
         file := .parsed (.obj data1) })

/-- Method `PersistentCache::flush`: no I/O when clean (returns `false`);
when dirty, serialize the full mapping, overwrite the file, clear the
dirty flag only after the write succeeds, and return `true`. -/
def PersistentCache.flush (writeOk : Bool) (st : CacheSys) :
    Except String Bool × CacheSys :=
  if !st.cache.dirty then (.ok false, st)
  else if !writeOk then (.error "Failed to write cache", st)
  else
    (.ok true,
     { cache := { st.cache with dirty := false },
       file := .parsed (.obj st.cache.data) })

/-- A one-entry cache system state whose file agrees with memory, used to
instantiate witnesses. -/
def cacheSt1 : CacheSys :=
  ⟨⟨[("k", Json.null)], false⟩, .parsed (.obj [("k", Json.null)])⟩

/-! ### Path sanitization (`sanitize_path_for_node`) -/

/-- Rust `str::strip_prefix`: the remainder after the prefix, when the
prefix is present. -/
def stripPfx (pre s : String) : Option String :=
  if pre.data.isPrefixOf s.data then some ⟨s.data.drop pre.data.length⟩
  else none

/-- Function `sanitize_path_for_node`: strip the Windows extended-length
prefix, rebuilding the `\\` root for extended UNC paths, and leave other
paths unchanged.  Pure and total by construction. -/
def sanitize_path_for_node (s : String) : String :=
  match stripPfx "\\\\?\\UNC\\" s with
  | some stripped_unc => "\\\\" ++ stripped_unc
  | none =>
    match stripPfx "\\\\?\\" s with
    | some stripped => stripped
    | none => s

/-! ## Helper lemmas -/

section LookupLemmas

variable {β : Type}

/-- Looking up a key in a list from which every binding of that key was
filtered out gives nothing. -/
theorem lookup_filter_ne (k : String) (m : List (String × β)) :
    (m.filter (fun p => p.1 != k)).lookup k = none := by
  induction m with
  | nil => rfl
  | cons p rest ih =>
    obtain ⟨k1, v1⟩ := p
    by_cases h : k1 = k
    · rw [List.filter_cons_of_neg (by simp [h])]
      exact ih
    · rw [List.filter_cons_of_pos (by simp [bne_iff_ne, h]), List.lookup_cons]
      have hk : (k == k1) = false := beq_eq_false_iff_ne.mpr (Ne.symm h)
      rw [hk]
      exact ih

/-- Looking up any other key is unaffected by filtering out `k`. -/
theorem lookup_filter_ne_other (k k' : String) (m : List (String × β))
    (hne : k' ≠ k) :
    (m.filter (fun p => p.1 != k)).lookup k' = m.lookup k' := by
  induction m with
  | nil => rfl
  | cons p rest ih =>
    obtain ⟨k1, v1⟩ := p
    by_cases h : k1 = k
    · rw [List.filter_cons_of_neg (by simp [h]), List.lookup_cons]
      have hk : (k' == k1) = false := beq_eq_false_iff_ne.mpr (by rw [h]; exact hne)
      rw [hk]
      exact ih
    · rw [List.filter_cons_of_pos (by simp [bne_iff_ne, h]), List.lookup_cons,
        List.lookup_cons]
      cases hb : (k' == k1) with
      | true => rfl
      | false => exact ih

end LookupLemmas

/-- Removal by `mapRemove` is visible through lookup. -/
theorem lookup_mapRemove_self (k : String) (m : Smap) :
    (mapRemove k m).lookup k = none :=
  lookup_filter_ne k m

/-- Insertion by `mapInsert` is visible through lookup. -/
theorem lookup_mapInsert_self (k v : String) (m : Smap) :
    (mapInsert k v m).lookup k = some v := by
  simp [mapInsert, List.lookup]

/-- Removal by `jRemove` is visible through lookup. -/
theorem lookup_jRemove_self (k : String) (m : JObj) :
    (jRemove k m).lookup k = none :=
  lookup_filter_ne k m

/-- Insertion by `jInsert` is visible through lookup. -/
theorem lookup_jInsert_self (k : String) (v : Json) (m : JObj) :
    (jInsert k v m).lookup k = some v := by
  simp [jInsert, List.lookup]

/-- Lookup in a keyed `filterMap` over a list of keys. -/
theorem lookup_filterMap_keyed (g : String → Option String) (l : List String)
    (k : String) :
    (l.filterMap (fun key => (g key).map (fun v => (key, v)))).lookup k =
      if k ∈ l then g k else none := by
  induction l with
  | nil => simp
  | cons a l ih =>
    by_cases hak : a = k
    · subst hak
      cases hga : g a with
      | none =>
        by_cases hkl : a ∈ l <;> simp [List.filterMap_cons, hga, ih, hkl]
      | some v => simp [List.filterMap_cons, hga, List.lookup_cons]
    · cases hga : g a with
      | none => simp [List.filterMap_cons, hga, ih, Ne.symm hak]
      | some v =>
        have hk : (k == a) = false := beq_eq_false_iff_ne.mpr (Ne.symm hak)
        simp [List.filterMap_cons, hga, List.lookup_cons, hk, ih, Ne.symm hak]

/-- Per-key content of the collected migration snapshot. -/
theorem lookup_collectLegacy (legacy : Smap) (key : String) :
    (collectLegacy legacy).lookup key =
      if SUPPORTED_SECRET_KEYS.contains key then legacyVal legacy key
      else none := by
  rw [collectLegacy, lookup_filterMap_keyed]
  by_cases h : key ∈ SUPPORTED_SECRET_KEYS <;> simp [h]

/-! ## Claim theorems -/

/-- Claim C1: for every recognized secret name and every value, `set_secret`
and `delete_secret` persist the entire candidate snapshot to secure storage
and commit it to the in-memory snapshot only on success; when the
secure-storage write fails, the operation returns an error and the whole
state (in particular the in-memory snapshot) is exactly what it was before
the call. -/
theorem C1_vault_write_then_commit (key value : String) (st : VaultSys)
    (hkey : SUPPORTED_SECRET_KEYS.contains key = true) :
    (set_secret false key value st = (.error "Failed to write vault", st) ∧
     delete_secret false key st = (.error "Failed to write vault", st)) ∧
    ((set_secret true key value st).1 = .ok () ∧
     (set_secret true key value st).2.secrets =
       (if (rustTrim value).isEmpty then mapRemove key st.secrets
        else mapInsert key (rustTrim value) st.secrets) ∧
     (set_secret true key value st).2.kc.vault =
       some (set_secret true key value st).2.secrets) ∧
    ((delete_secret true key st).1 = .ok () ∧
     (delete_secret true key st).2.secrets = mapRemove key st.secrets ∧
     (delete_secret true key st).2.kc.vault =
       some (delete_secret true key st).2.secrets) := by
  have hmem : key ∈ SUPPORTED_SECRET_KEYS := by simpa using hkey
  simp [set_secret, delete_secret, save_vault, hmem]

/-- Witness for C1 at a concrete recognized key, value and state. -/
theorem C1_witness :
    SUPPORTED_SECRET_KEYS.contains "GROQ_API_KEY" = true ∧
    ((set_secret false "GROQ_API_KEY" "v" vaultSt0 =
        (.error "Failed to write vault", vaultSt0) ∧
      delete_secret false "GROQ_API_KEY" vaultSt0 =
        (.error "Failed to write vault", vaultSt0)) ∧
     ((set_secret true "GROQ_API_KEY" "v" vaultSt0).1 = .ok () ∧
      (set_secret true "GROQ_API_KEY" "v" vaultSt0).2.secrets =
        (if (rustTrim "v").isEmpty then mapRemove "GROQ_API_KEY" vaultSt0.secrets
         else mapInsert "GROQ_API_KEY" (rustTrim "v") vaultSt0.secrets) ∧
      (set_secret true "GROQ_API_KEY" "v" vaultSt0).2.kc.vault =
        some (set_secret true "GROQ_API_KEY" "v" vaultSt0).2.secrets) ∧
     ((delete_secret true "GROQ_API_KEY" vaultSt0).1 = .ok () ∧
      (delete_secret true "GROQ_API_KEY" vaultSt0).2.secrets =
        mapRemove "GROQ_API_KEY" vaultSt0.secrets ∧
      (delete_secret true "GROQ_API_KEY" vaultSt0).2.kc.vault =
        some (delete_secret true "GROQ_API_KEY" vaultSt0).2.secrets)) :=
  ⟨by decide, C1_vault_write_then_commit "GROQ_API_KEY" "v" vaultSt0 (by decide)⟩

/-- Claim C6: for every recognized name and starting state,
`set_secret name ""` is the same operation as `delete_secret name`
(same result, same snapshot, same persisted record, for either outcome of
the storage write), and after a successful empty-set a `get_secret` of the
name yields absent. -/
theorem C6_set_empty_equals_delete (key : String) (st : VaultSys) (w : Bool)
    (hkey : SUPPORTED_SECRET_KEYS.contains key = true) :
    set_secret w key "" st = delete_secret w key st ∧
    get_secret key (set_secret true key "" st).2 = .ok none := by
  have hmem : key ∈ SUPPORTED_SECRET_KEYS := by simpa using hkey
  have htrim : (rustTrim "").isEmpty = true := by decide
  constructor
  · simp [set_secret, delete_secret, hmem, htrim]
  · simp [set_secret, get_secret, save_vault, hmem, htrim, lookup_mapRemove_self]

/-- Witness for C6 at a concrete recognized key and nonempty state. -/
theorem C6_witness :
    SUPPORTED_SECRET_KEYS.contains "OLLAMA_MODEL" = true ∧
    (set_secret false "OLLAMA_MODEL" "" vaultSt1 =
      delete_secret false "OLLAMA_MODEL" vaultSt1 ∧
     get_secret "OLLAMA_MODEL" (set_secret true "OLLAMA_MODEL" "" vaultSt1).2 =
      .ok none) :=
  ⟨by decide, C6_set_empty_equals_delete "OLLAMA_MODEL" vaultSt1 false (by decide)⟩

/-- Claim C7: for every name outside the recognized set, `get_secret`,
`set_secret` and `delete_secret` fail with the unsupported-key error and
leave the state (in-memory snapshot and secure-storage record) unchanged. -/
theorem C7_unsupported_key_no_effect (key value : String) (st : VaultSys)
    (w : Bool) (hkey : SUPPORTED_SECRET_KEYS.contains key = false) :
    get_secret key st = .error ("Unsupported secret key: " ++ key) ∧
    set_secret w key value st = (.error ("Unsupported secret key: " ++ key), st) ∧
    delete_secret w key st = (.error ("Unsupported secret key: " ++ key), st) := by
  have hmem : key ∉ SUPPORTED_SECRET_KEYS := by simpa using hkey
  simp [get_secret, set_secret, delete_secret, hmem]

/-- Witness for C7 at a concrete unrecognized key. -/
theorem C7_witness :
    SUPPORTED_SECRET_KEYS.contains "NOT_A_KEY" = false ∧
    (get_secret "NOT_A_KEY" vaultSt1 =
      .error ("Unsupported secret key: " ++ "NOT_A_KEY") ∧
     set_secret true "NOT_A_KEY" "v" vaultSt1 =
      (.error ("Unsupported secret key: " ++ "NOT_A_KEY"), vaultSt1) ∧
     delete_secret true "NOT_A_KEY" vaultSt1 =
      (.error ("Unsupported secret key: " ++ "NOT_A_KEY"), vaultSt1)) :=
  ⟨by decide, C7_unsupported_key_no_effect "NOT_A_KEY" "v" vaultSt1 true (by decide)⟩

/-- Claim C2: when the consolidated record is absent or unparseable,
`load_from_keychain` follows the migration path: the returned snapshot is
exactly the collected legacy values (per recognized key, the trimmed
legacy value when present and non-empty, tolerating per-key absence;
nothing for unrecognized keys); when values were found and the
consolidated write succeeds, the final keychain holds them as one
consolidated record and the legacy per-key records are deleted; when the
consolidated write fails, the returned snapshot still holds all collected
values and the keychain is untouched (only the cleanup is skipped). -/
theorem C2_migration_path (kc : KeychainM)
    (hmig : kc.vaultRead = .absent ∨ kc.vaultRead = .unparseable) :
    (load_from_keychain kc).1 = collectLegacy kc.legacy ∧
    (∀ key : String,
      (load_from_keychain kc).1.lookup key =
        if SUPPORTED_SECRET_KEYS.contains key then legacyVal kc.legacy key
        else none) ∧
    ((load_from_keychain kc).1 ≠ [] → kc.vaultWriteOk = true →
      (load_from_keychain kc).2.vaultRead = .parsed (load_from_keychain kc).1 ∧
      (load_from_keychain kc).2.legacy = deleteLegacy kc.legacy) ∧
    (kc.vaultWriteOk = false → (load_from_keychain kc).2 = kc) ∧
    ((load_from_keychain kc).1 = [] → (load_from_keychain kc).2 = kc) := by
  obtain ⟨vr, legacy, wOk⟩ := kc
  have hstep : load_from_keychain ⟨vr, legacy, wOk⟩ = migrate ⟨vr, legacy, wOk⟩ := by
    rcases hmig with h | h <;> simp only at h <;> subst h <;> rfl
  rw [hstep]
  have h1 : (migrate ⟨vr, legacy, wOk⟩).1 = collectLegacy legacy := by
    simp only [migrate]
    split <;> rfl
  refine ⟨h1, ?_, ?_, ?_, ?_⟩
  · intro key
    rw [h1]
    exact lookup_collectLegacy legacy key
  · intro hne hw
    rw [h1] at hne
    simp only at hw
    simp [migrate, hne, hw]
  · intro hw
    simp only at hw
    simp [migrate, hw]
  · intro hemp
    rw [h1] at hemp
    simp [migrate, hemp]

/-- Witness for C2 at the concrete migration-path keychain `kcM0`. -/
theorem C2_witness :
    (kcM0.vaultRead = .absent ∨ kcM0.vaultRead = .unparseable) ∧
    ((load_from_keychain kcM0).1 = collectLegacy kcM0.legacy ∧
     (∀ key : String,
       (load_from_keychain kcM0).1.lookup key =
         if SUPPORTED_SECRET_KEYS.contains key then legacyVal kcM0.legacy key
         else none) ∧
     ((load_from_keychain kcM0).1 ≠ [] → kcM0.vaultWriteOk = true →
       (load_from_keychain kcM0).2.vaultRead =
         .parsed (load_from_keychain kcM0).1 ∧
       (load_from_keychain kcM0).2.legacy = deleteLegacy kcM0.legacy) ∧
     (kcM0.vaultWriteOk = false → (load_from_keychain kcM0).2 = kcM0) ∧
     ((load_from_keychain kcM0).1 = [] → (load_from_keychain kcM0).2 = kcM0)) :=
  ⟨Or.inl rfl, C2_migration_path kcM0 (Or.inl rfl)⟩

/-- Claim C3: whenever `write_cache_entry` returns success for a key and a
well-formed JSON value, re-loading the store from the persisted file as
`PersistentCache::load` does at startup yields that value for that key. -/
theorem C3_put_durable (pathOk writeOk : Bool) (key : String) (v : Json)
    (st : CacheSys)
    (hok : (write_cache_entry pathOk writeOk key (some v) st).1 = .ok ()) :
    (PersistentCache.load
        (write_cache_entry pathOk writeOk key (some v) st).2.file).data.lookup
      key = some v := by
  cases pathOk with
  | false => simp [write_cache_entry] at hok
  | true =>
    cases writeOk with
    | false => simp [write_cache_entry] at hok
    | true =>
      simp [write_cache_entry, PersistentCache.load, fileMap, asObject,
        lookup_jInsert_self]

/-- Witness for C3 at a concrete key, value and state. -/
theorem C3_witness :
    (write_cache_entry true true "k2" (some (Json.num 7)) cacheSt1).1 =
      .ok () ∧
    (PersistentCache.load
        (write_cache_entry true true "k2" (some (Json.num 7))
          cacheSt1).2.file).data.lookup "k2" = some (Json.num 7) :=
  ⟨rfl, C3_put_durable true true "k2" (Json.num 7) cacheSt1 rfl⟩

/-- Claim C4: for a key present in the persisted cache file,
`delete_cache_entry` leaves the file still containing the key (the disk
write is deferred), and a subsequent successful `flush` rewrites the file
so that it no longer contains the key. -/
theorem C4_delete_deferred_durability (key : String) (st : CacheSys)
    (hkey : ((fileMap st.file).lookup key).isSome = true) :
    ((fileMap (delete_cache_entry key st).2.file).lookup key).isSome = true ∧
    (PersistentCache.flush true (delete_cache_entry key st).2).1 = .ok true ∧
    (fileMap
        (PersistentCache.flush true
          (delete_cache_entry key st).2).2.file).lookup key = none := by
  refine ⟨?_, ?_, ?_⟩
  · simpa [delete_cache_entry] using hkey
  · simp [delete_cache_entry, PersistentCache.flush]
  · simp [delete_cache_entry, PersistentCache.flush, fileMap, asObject,
      lookup_jRemove_self]

/-- Witness for C4 at a concrete key and state whose file contains it. -/
theorem C4_witness :
    ((fileMap cacheSt1.file).lookup "k").isSome = true ∧
    (((fileMap (delete_cache_entry "k" cacheSt1).2.file).lookup "k").isSome =
       true ∧
     (PersistentCache.flush true (delete_cache_entry "k" cacheSt1).2).1 =
       .ok true ∧
     (fileMap
         (PersistentCache.flush true
           (delete_cache_entry "k" cacheSt1).2).2.file).lookup "k" = none) :=
  ⟨rfl, C4_delete_deferred_durability "k" cacheSt1 rfl⟩

/-- Claim C8: `flush` returns `wrote = false` and performs no file write
when the dirty flag is false; when the dirty flag is true it serializes the
full in-memory mapping, overwrites the file, clears the dirty flag only
after the write succeeds (a failed write leaves it set, and the state
untouched), and returns `wrote = true`. -/
theorem C8_flush_contract (st : CacheSys) (writeOk : Bool) :
    (st.cache.dirty = false →
      PersistentCache.flush writeOk st = (.ok false, st)) ∧
    (st.cache.dirty = true → writeOk = true →
      PersistentCache.flush writeOk st =
        (.ok true, ⟨⟨st.cache.data, false⟩, .parsed (.obj st.cache.data)⟩)) ∧
    (st.cache.dirty = true → writeOk = false →
      PersistentCache.flush writeOk st = (.error "Failed to write cache", st)) := by
  refine ⟨?_, ?_, ?_⟩
  · intro hd
    simp [PersistentCache.flush, hd]
  · intro hd hw
    simp [PersistentCache.flush, hd, hw]
  · intro hd hw
    simp [PersistentCache.flush, hd, hw]

/-- Witness for C8 at a concrete dirty state with a succeeding write. -/
theorem C8_witness :
    ((⟨⟨[("k", Json.null)], true⟩, .missing⟩ : CacheSys).cache.dirty = true ∧
      true = true) ∧
    (((⟨⟨[("k", Json.null)], true⟩, .missing⟩ : CacheSys).cache.dirty = false →
       PersistentCache.flush true ⟨⟨[("k", Json.null)], true⟩, .missing⟩ =
         (.ok false, ⟨⟨[("k", Json.null)], true⟩, .missing⟩)) ∧
     ((⟨⟨[("k", Json.null)], true⟩, .missing⟩ : CacheSys).cache.dirty = true →
       true = true →
       PersistentCache.flush true ⟨⟨[("k", Json.null)], true⟩, .missing⟩ =
         (.ok true,
          ⟨⟨(⟨⟨[("k", Json.null)], true⟩, .missing⟩ : CacheSys).cache.data,
            false⟩,
           .parsed
             (.obj
               (⟨⟨[("k", Json.null)], true⟩,
                 .missing⟩ : CacheSys).cache.data)⟩)) ∧
     ((⟨⟨[("k", Json.null)], true⟩, .missing⟩ : CacheSys).cache.dirty = true →
       true = false →
       PersistentCache.flush true ⟨⟨[("k", Json.null)], true⟩, .missing⟩ =
         (.error "Failed to write cache",
          ⟨⟨[("k", Json.null)], true⟩, .missing⟩))) :=
  ⟨⟨rfl, rfl⟩, C8_flush_contract ⟨⟨[("k", Json.null)], true⟩, .missing⟩ true⟩

/-- Claim C10: for every key and every payload string that is not valid
JSON (its parse outcome is `none`), `write_cache_entry` fails with the
invalid-payload error before any mutation: the in-memory mapping, the
dirty flag and the persisted file are exactly as before the call. -/
theorem C10_invalid_payload_no_mutation (pathOk writeOk : Bool)
    (key : String) (st : CacheSys) :
    write_cache_entry pathOk writeOk key none st =
      (.error "Invalid cache payload JSON", st) :=
  rfl

/-- Claim C5: `sanitize_path_for_node` is a pure total function; it maps the
extended-length drive form to the plain drive path, maps the extended UNC
form to the `\\`-rooted UNC path (never a string starting with `UNC\`),
and leaves any path without the extended-length marker unchanged. -/
theorem C5_sanitize_path (s : String)
    (hs : "\\\\?\\".data.isPrefixOf s.data = false) :
    sanitize_path_for_node "\\\\?\\C:\\a\\b" = "C:\\a\\b" ∧
    sanitize_path_for_node "\\\\?\\UNC\\server\\share\\x" =
      "\\\\server\\share\\x" ∧
    sanitize_path_for_node s = s := by
  refine ⟨by decide, by decide, ?_⟩
  have hunc : "\\\\?\\UNC\\".data.isPrefixOf s.data = false := by
    cases hp : "\\\\?\\UNC\\".data.isPrefixOf s.data with
    | false => rfl
    | true =>
      have hpre : "\\\\?\\UNC\\".data <+: s.data :=
        List.isPrefixOf_iff_prefix.mp hp
      have hsub : "\\\\?\\".data <+: "\\\\?\\UNC\\".data := by decide
      have hall : "\\\\?\\".data.isPrefixOf s.data = true :=
        List.isPrefixOf_iff_prefix.mpr (hsub.trans hpre)
      exact absurd (hs ▸ hall) (by decide)
  simp [sanitize_path_for_node, stripPfx, hunc, hs]

/-- Witness for C5 at a concrete plain path. -/
theorem C5_witness :
    "\\\\?\\".data.isPrefixOf "C:\\plain\\path".data = false ∧
    (sanitize_path_for_node "\\\\?\\C:\\a\\b" = "C:\\a\\b" ∧
     sanitize_path_for_node "\\\\?\\UNC\\server\\share\\x" =
       "\\\\server\\share\\x" ∧
     sanitize_path_for_node "C:\\plain\\path" = "C:\\plain\\path") :=
  ⟨by decide, C5_sanitize_path "C:\\plain\\path" (by decide)⟩

end WorldMonitor
